import Mathlib

/-!
Verification of the band-gap prediction inference pipeline of
`band_gap_prediction.py` and `rf.py`.

Both scripts expose `predict_band_gap(input_formula)`: they check that the
three artifact files exist, load a regressor, a scaler and the ordered
training feature-column list, featurize the formula through an external
library (matminer), reindex the raw features to the training columns with
fill value 0, scale, predict, and return the scalar prediction — and every
failure is caught by a stage-specific `except` block that prints a message
and returns `None`.

The embedding below is a shallow model of that code.  External
collaborators (the filesystem, joblib deserialization, matminer import,
featurizer construction, formula parsing, composition featurization, the
persisted scaler and regressor) are fields of an `Env` record: each is an
arbitrary total function whose `Except` result encodes whether the
corresponding Python call raises.  Feature values are modelled as `ℚ`
(the pipeline logic proved here does not depend on IEEE float behaviour).
A call returns the `Option ℚ` the Python function returns, paired with a
trace of abstract `Event`s recording which stages ran and which
stage-specific handler (if any) fired; the events abstract the scripts'
`print` diagnostics.
-/

/-- A raw or aligned feature vector: ordered named numeric features,
modelling the single row of the pandas DataFrame. -/
abbrev FeatureMap := List (String × ℚ)

/-- A parsed chemical composition: element symbol to stoichiometric amount,
as produced by matminer StrToComposition. -/
abbrev ChemComposition := List (String × ℚ)

/-- The artifact bundle the scripts deserialize with joblib: the trained
regressor (`model.predict`), the fitted scaler (`scaler.transform`), and the
ordered training feature-column names.  `model` and `scaler` are opaque
fallible functions on numeric rows, mirroring arbitrary persisted sklearn
objects whose calls may raise. -/
structure ModelArtifacts where
  model : List ℚ → Except String (List ℚ)
  scaler : List ℚ → Except String (List ℚ)
  feature_columns : List String

/-- The external world a `predict_band_gap` call runs against.
`filesAt d` lists the files present in directory `d` (os.path.exists);
`artifactsAt d` is the outcome of the three joblib.load calls against
directory `d` (an `Except.error` models a raise inside that try block);
`matminer_available` models the matminer import; `featurizer_preset` the
outcome of `ElementProperty.from_preset("magpie")`; `str_to_comp` the
outcome of `StrToComposition().featurize_dataframe` on the formula; and
`magpie_featurize` the outcome of
`featurizer.featurize_dataframe(..., ignore_errors=True)`. -/
structure Env where
  script_dir : String
  cwd : String
  filesAt : String → List String
  artifactsAt : String → Except String ModelArtifacts
  matminer_available : Bool
  featurizer_preset : Except String Unit
  str_to_comp : String → Except String ChemComposition
  magpie_featurize : ChemComposition → Except String FeatureMap

/-- The three artifact files both scripts require. -/
def required_files : List String :=
  ["bandgap_model.joblib", "scaler.joblib", "feature_columns.joblib"]

/-- Abstract trace events, one per stage outcome the scripts print.
The `*Error` constructors correspond to the stage-specific `except`
handlers (each prints its own message and returns `None`);
`missingFile` corresponds to the missing-artifact report of the
existence check. -/
inductive Event where
  | missingFile (name : String)
  | artifactsLoaded
  | loadError (msg : String)
  | matminerImportError
  | featurizerError (msg : String)
  | featurized (formula : String)
  | featurizeError (msg : String)
  | featuresPrepared
  | prepareError (msg : String)
  | predictError (msg : String)
  deriving DecidableEq, Repr, BEq

/-- The pipeline stage a trace event belongs to. -/
inductive Stage where
  | artifactCheck
  | artifactLoad
  | matminerImport
  | featurizerSetup
  | featurization
  | featurePrep
  | prediction
  deriving DecidableEq, Repr, BEq

/-- Stage of each event. -/
def stageOf : Event → Stage
  | .missingFile _ => .artifactCheck
  | .artifactsLoaded => .artifactLoad
  | .loadError _ => .artifactLoad
  | .matminerImportError => .matminerImport
  | .featurizerError _ => .featurizerSetup
  | .featurized _ => .featurization
  | .featurizeError _ => .featurization
  | .featuresPrepared => .featurePrep
  | .prepareError _ => .featurePrep
  | .predictError _ => .prediction

/-- Whether an event reports a stage failure (a fired `except` handler or a
missing-artifact report). -/
def isErrorEvent : Event → Bool
  | .missingFile _ => true
  | .loadError _ => true
  | .matminerImportError => true
  | .featurizerError _ => true
  | .featurizeError _ => true
  | .prepareError _ => true
  | .predictError _ => true
  | .artifactsLoaded => false
  | .featurized _ => false
  | .featuresPrepared => false

/-- Whether an event is a missing-artifact report. -/
def isMissingEvent : Event → Bool
  | .missingFile _ => true
  | _ => false

/-- The stage kinds of the failure reports in a trace. -/
def errorKinds (tr : List Event) : List Stage :=
  (tr.filter isErrorEvent).map stageOf

/-- The stage of the first failure report in a trace, if any. -/
def failedStage (tr : List Event) : Option Stage :=
  (tr.find? isErrorEvent).map stageOf

/-- Whether an event records a successful artifact-bundle disk load. -/
def isLoadEvent : Event → Bool
  | .artifactsLoaded => true
  | _ => false

/-- How many artifact-bundle disk loads a trace records. -/
def loadCount (tr : List Event) : Nat :=
  (tr.filter isLoadEvent).length

/-- Label lookup in a feature row: the value stored under the first
occurrence of column `c`, as pandas label indexing does. -/
def lookup_col (c : String) : FeatureMap → Option ℚ
  | [] => none
  | (k, v) :: rest => if k = c then some v else lookup_col c rest

/-- The feature aligner, from `input_df.reindex(columns=feature_columns,
fill_value=0)` (band_gap_prediction.py line 87, rf.py line 61): exactly the
requested columns in the requested order, existing values kept, missing
columns filled with 0, extra raw columns dropped. -/
def reindex (raw : FeatureMap) (cols : List String) : FeatureMap :=
  cols.map (fun c => (c, (lookup_col c raw).getD 0))

/-- The numeric row handed to `scaler.transform`. -/
def colValues (v : FeatureMap) : List ℚ := v.map Prod.snd

/-- The featurization try block shared by both scripts (lines 68 to 82 of
band_gap_prediction.py, 42 to 56 of rf.py): formula-to-composition
conversion followed by magpie featurization; a raise anywhere inside lands
in the single `except` of that block. -/
def featurize_formula (env : Env) (formula : String) : Except String FeatureMap :=
  match env.str_to_comp formula with
  | .error e => .error e
  | .ok comp => env.magpie_featurize comp

namespace BGP

/-- Shallow embedding of `predict_band_gap` of `band_gap_prediction.py`
(lines 16 to 110).  Artifact paths are resolved against the script
directory; the existence check collects every missing file before
returning; each stage failure returns `none` after its handler prints
(recorded as the corresponding error event). -/
def predict_band_gap (env : Env) (input_formula : String) : Option ℚ × List Event :=
  let script_dir := env.script_dir
  let missing_files :=
    required_files.filter (fun f => !((env.filesAt script_dir).contains f))
  if missing_files.isEmpty = false then
    (none, missing_files.map Event.missingFile)
  else
    match env.artifactsAt script_dir with
    | .error e => (none, [Event.loadError e])
    | .ok arts =>
      if env.matminer_available = false then
        (none, [Event.artifactsLoaded, Event.matminerImportError])
      else
        match env.featurizer_preset with
        | .error e => (none, [Event.artifactsLoaded, Event.featurizerError e])
        | .ok _ =>
          match featurize_formula env input_formula with
          | .error e => (none, [Event.artifactsLoaded, Event.featurizeError e])
          | .ok raw =>
            let x_input := reindex raw arts.feature_columns
            match arts.scaler (colValues x_input) with
            | .error e =>
              (none, [Event.artifactsLoaded, Event.featurized input_formula,
                      Event.prepareError e])
            | .ok x_scaled =>
              match arts.model x_scaled with
              | .error e =>
                (none, [Event.artifactsLoaded, Event.featurized input_formula,
                        Event.featuresPrepared, Event.predictError e])
              | .ok preds =>
                match preds.head? with
                | none =>
                  (none, [Event.artifactsLoaded, Event.featurized input_formula,
                          Event.featuresPrepared, Event.predictError "IndexError"])
                | some v =>
                  (some v, [Event.artifactsLoaded, Event.featurized input_formula,
                            Event.featuresPrepared])

end BGP

namespace RF

/-- Shallow embedding of `predict_band_gap` of `rf.py` (lines 7 to 82).
Artifact paths are resolved against the current working directory; the
existence check returns upon the first missing file; the stage structure
after the check is identical to band_gap_prediction.py. -/
def predict_band_gap (env : Env) (input_formula : String) : Option ℚ × List Event :=
  match required_files.find? (fun f => !((env.filesAt env.cwd).contains f)) with
  | some file => (none, [Event.missingFile file])
  | none =>
    match env.artifactsAt env.cwd with
    | .error e => (none, [Event.loadError e])
    | .ok arts =>
      if env.matminer_available = false then
        (none, [Event.artifactsLoaded, Event.matminerImportError])
      else
        match env.featurizer_preset with
        | .error e => (none, [Event.artifactsLoaded, Event.featurizerError e])
        | .ok _ =>
          match featurize_formula env input_formula with
          | .error e => (none, [Event.artifactsLoaded, Event.featurizeError e])
          | .ok raw =>
            let x_input := reindex raw arts.feature_columns
            match arts.scaler (colValues x_input) with
            | .error e =>
              (none, [Event.artifactsLoaded, Event.featurized input_formula,
                      Event.prepareError e])
            | .ok x_scaled =>
              match arts.model x_scaled with
              | .error e =>
                (none, [Event.artifactsLoaded, Event.featurized input_formula,
                        Event.featuresPrepared, Event.predictError e])
              | .ok preds =>
                match preds.head? with
                | none =>
                  (none, [Event.artifactsLoaded, Event.featurized input_formula,
                          Event.featuresPrepared, Event.predictError "IndexError"])
                | some v =>
                  (some v, [Event.artifactsLoaded, Event.featurized input_formula,
                            Event.featuresPrepared])

end RF

/-- Python str.lower as both scripts apply it to the read input: per-character
lowercasing (ASCII letters mapped to their lowercase forms). -/
def pyLower (s : String) : String := ⟨s.data.map Char.toLower⟩

/-- The interactive read loop shared by both scripts (band_gap_prediction.py
lines 123 to 129, rf.py lines 89 to 95), over a finite stream of inputs:
returns the formulas actually handed to `predict_band_gap`, in order.  An
input whose `.lower()` is the sentinel breaks the loop before predicting;
any other input, the empty string included, is predicted and the loop
continues. -/
def process_user_input : List String → List String
  | [] => []
  | formula :: rest =>
    if pyLower formula = "exit" then []
    else formula :: process_user_input rest

/-- The synthetic two-feature artifact bundle of the end-to-end scenario:
feature columns a and b, identity scaler, regressor x0 + x1 (raising on any
other input width, as a regressor fit on two features would). -/
def artsAB : ModelArtifacts where
  model := fun x =>
    match x with
    | [a, b] => .ok [a + b]
    | _ => .error "shape mismatch"
  scaler := fun x => .ok x
  feature_columns := ["a", "b"]

/-- Concrete healthy environment for the end-to-end scenario: all three
artifact files present, bundle `artsAB`, matminer importable, featurizer
constructible, the stub resolver parsing exactly the formula TestX, and the
stub featurizer producing raw features a = 1 and b = 2. -/
def envGood : Env where
  script_dir := "/repo"
  cwd := "/repo"
  filesAt := fun _ => required_files
  artifactsAt := fun _ => .ok artsAB
  matminer_available := true
  featurizer_preset := .ok ()
  str_to_comp := fun f =>
    if f = "TestX" then .ok [("Test", 1)] else .error "ParseError"
  magpie_featurize := fun _ => .ok [("a", 1), ("b", 2)]

/-- Same environment, but the stub featurizer produces only a = 1 and no b. -/
def envGood1 : Env :=
  { envGood with magpie_featurize := fun _ => .ok [("a", 1)] }

/-- Same environment, but the artifact directory is empty. -/
def envMissing : Env :=
  { envGood with filesAt := fun _ => [] }

/-- Whether every stage kind in a list is the same one. -/
def sameKind : List Stage → Bool
  | [] => true
  | s :: rest => rest.all (fun s2 => decide (s2 = s))

/-! ## Helper lemmas about the aligner -/

theorem lookup_col_map_mem (cols : List String) (f : String → ℚ) (c : String) :
    c ∈ cols → lookup_col c (cols.map (fun x => (x, f x))) = some (f c) := by
  induction cols with
  | nil => intro hc; cases hc
  | cons x rest ih =>
    intro hc
    by_cases hx : x = c
    · subst hx
      simp [lookup_col]
    · simp only [List.map_cons, lookup_col, hx, if_false]
      rcases List.mem_cons.mp hc with h | h
      · exact absurd h.symm hx
      · exact ih h

theorem lookup_col_map_not_mem (cols : List String) (f : String → ℚ) (c : String) :
    c ∉ cols → lookup_col c (cols.map (fun x => (x, f x))) = none := by
  induction cols with
  | nil => intro _; rfl
  | cons x rest ih =>
    intro hc
    have hx : x ≠ c := fun h => hc (h ▸ List.mem_cons_self x rest)
    simp only [List.map_cons, lookup_col, hx, if_false]
    exact ih (fun h => hc (List.mem_cons_of_mem x h))

/-- C2: the Feature Aligner returns a vector with exactly the columns of
feature_columns in that order (dimensionality exactly the number of
training columns); every raw feature absent from feature_columns is
dropped, every training column present in the raw vector keeps its value,
every training column absent from the raw vector is filled with 0, and the
aligner is a total function (it never fails on a column mismatch). -/
theorem reindex_aligns (raw : FeatureMap) (cols : List String) :
    ((reindex raw cols).map Prod.fst = cols) ∧
    ((reindex raw cols).length = cols.length) ∧
    (∀ c, c ∈ cols →
      lookup_col c (reindex raw cols) = some ((lookup_col c raw).getD 0)) ∧
    (∀ c, c ∉ cols → lookup_col c (reindex raw cols) = none) := by
  refine ⟨?_, ?_, ?_, ?_⟩
  · simp [reindex, List.map_map, Function.comp_def]
  · simp [reindex]
  · intro c hc
    exact lookup_col_map_mem cols _ c hc
  · intro c hc
    exact lookup_col_map_not_mem cols _ c hc

/-- Witness for reindex_aligns at the two-column scenario: column b is
absent from the raw vector and comes back filled with 0, while a column
outside the training list is dropped. -/
theorem reindex_aligns_witness :
    lookup_col "b" (reindex [("a", (1 : ℚ))] ["a", "b"])
        = some ((lookup_col "b" [("a", (1 : ℚ))]).getD 0) ∧
    lookup_col "zz" (reindex [("a", (1 : ℚ))] ["a", "b"]) = none :=
  ⟨(reindex_aligns [("a", (1 : ℚ))] ["a", "b"]).2.2.1 "b" (by decide),
   (reindex_aligns [("a", (1 : ℚ))] ["a", "b"]).2.2.2 "zz" (by decide)⟩

/-- A vector whose key list is duplicate-free is a fixed point of alignment
against its own key list. -/
theorem reindex_self (v : FeatureMap) :
    (v.map Prod.fst).Nodup → reindex v (v.map Prod.fst) = v := by
  induction v with
  | nil => intro _; rfl
  | cons kv rest ih =>
    intro hnd
    obtain ⟨k, x⟩ := kv
    simp only [List.map_cons] at hnd ⊢
    have hk : k ∉ rest.map Prod.fst := (List.nodup_cons.mp hnd).1
    have hrest : (rest.map Prod.fst).Nodup := (List.nodup_cons.mp hnd).2
    have hhead : lookup_col k ((k, x) :: rest) = some x := by simp [lookup_col]
    have htail : ∀ c ∈ rest.map Prod.fst,
        lookup_col c ((k, x) :: rest) = lookup_col c rest := by
      intro c hc
      have hkc : k ≠ c := fun h => hk (h ▸ hc)
      simp [lookup_col, hkc]
    calc reindex ((k, x) :: rest) (k :: rest.map Prod.fst)
        = (k, x) :: (rest.map Prod.fst).map
            (fun c => (c, (lookup_col c ((k, x) :: rest)).getD 0)) := by
          simp [reindex, hhead]
      _ = (k, x) :: reindex rest (rest.map Prod.fst) := by
          unfold reindex
          congr 1
          apply List.map_congr_left
          intro c hc
          rw [htail c hc]
      _ = (k, x) :: rest := by rw [ih hrest]

/-- C6: alignment is idempotent — aligning an already-aligned vector
against the same feature_columns returns it unchanged, and any vector
whose columns are exactly the (duplicate-free) feature_columns in training
order is a fixed point of alignment. -/
theorem reindex_idempotent (raw v : FeatureMap) (cols : List String) :
    reindex (reindex raw cols) cols = reindex raw cols ∧
    (cols.Nodup → v.map Prod.fst = cols → reindex v cols = v) := by
  constructor
  · unfold reindex
    apply List.map_congr_left
    intro c hc
    rw [lookup_col_map_mem cols _ c hc, Option.getD_some]
  · intro hnd hcols
    subst hcols
    exact reindex_self v hnd

/-- Witness for reindex_idempotent: an aligned two-column vector is left
unchanged by a second alignment. -/
theorem reindex_idempotent_witness :
    reindex [("a", (3 : ℚ)), ("b", 4)] ["a", "b"] = [("a", (3 : ℚ)), ("b", 4)] :=
  (reindex_idempotent [] [("a", (3 : ℚ)), ("b", 4)] ["a", "b"]).2 (by decide) rfl

/-- C3: end-to-end synthetic scenario — with feature_columns a and b, an
identity scaler and a regressor summing its two inputs, the stub featurizer
output a = 1, b = 2 for formula TestX yields the prediction 3; with the
stub producing only a = 1, the aligned vector is a = 1, b = 0 and the
prediction is 1. -/
theorem end_to_end_synthetic :
    (BGP.predict_band_gap envGood "TestX").fst = some 3 ∧
    reindex [("a", (1 : ℚ))] ["a", "b"] = [("a", 1), ("b", 0)] ∧
    (BGP.predict_band_gap envGood1 "TestX").fst = some 1 := by
  refine ⟨?_, by decide, ?_⟩
  · simp [BGP.predict_band_gap, envGood, artsAB, featurize_formula, required_files,
      reindex, colValues, lookup_col]
    norm_num
  · simp [BGP.predict_band_gap, envGood1, envGood, artsAB, featurize_formula,
      required_files, reindex, colValues, lookup_col]

/-- C10: the read loop sentinel is matched case-insensitively — any input
lowercasing to exit terminates the loop without a prediction, and any other
input (the empty string included) is passed to prediction and the loop
continues. -/
theorem exit_sentinel (formula : String) (rest : List String) :
    (pyLower formula = "exit" → process_user_input (formula :: rest) = []) ∧
    (pyLower formula ≠ "exit" →
      process_user_input (formula :: rest) = formula :: process_user_input rest) := by
  constructor
  · intro h
    simp [process_user_input, h]
  · intro h
    simp [process_user_input, h]

/-- Witness for exit_sentinel: the input EXIT terminates the loop and the
empty input is still handed to prediction. -/
theorem exit_sentinel_witness :
    process_user_input ["EXIT", "Si"] = [] ∧
    process_user_input ["", "Si2"] = "" :: process_user_input ["Si2"] :=
  ⟨(exit_sentinel "EXIT" ["Si"]).1 (by decide),
   (exit_sentinel "" ["Si2"]).2 (by decide)⟩

/-! ## Fail-fast theorems -/

/-- C4: when any required artifact file is absent from the base directory,
the call fails at the artifact existence check: the result is None, every
trace event is a missing-artifact report, and the outcome does not depend
on the composition resolver or the featurizer — those stages are never
entered. -/
theorem missing_artifact_fail_fast (env : Env) (formula : String)
    (h : required_files.any
      (fun f => !((env.filesAt env.script_dir).contains f)) = true) :
    ((BGP.predict_band_gap env formula).fst = none) ∧
    ((BGP.predict_band_gap env formula).snd.all isMissingEvent = true) ∧
    (∀ g fz, BGP.predict_band_gap
        { env with str_to_comp := g, magpie_featurize := fz } formula
      = BGP.predict_band_gap env formula) := by
  obtain ⟨f, hf, hpf⟩ := List.any_eq_true.mp h
  have hne : required_files.filter
      (fun f => !((env.filesAt env.script_dir).contains f)) ≠ [] := by
    intro hnil
    exact (List.filter_eq_nil_iff.mp hnil f hf) hpf
  have hE : (required_files.filter
      (fun f => !((env.filesAt env.script_dir).contains f))).isEmpty = false :=
    List.isEmpty_eq_false.mpr hne
  refine ⟨?_, ?_, ?_⟩
  · simp only [BGP.predict_band_gap]
    rw [if_pos hE]
  · simp only [BGP.predict_band_gap]
    rw [if_pos hE]
    dsimp only
    apply List.all_eq_true.mpr
    intro a ha
    rcases List.mem_map.mp ha with ⟨b, hb, rfl⟩
    rfl
  · intro g fz
    simp only [BGP.predict_band_gap]
    rw [if_pos hE, if_pos hE]

/-- Witness for missing_artifact_fail_fast: in the empty artifact
directory, prediction of Fe2O3 returns None and the trace holds only
missing-artifact reports. -/
theorem missing_artifact_fail_fast_witness :
    (BGP.predict_band_gap envMissing "Fe2O3").fst = none ∧
    (BGP.predict_band_gap envMissing "Fe2O3").snd.all isMissingEvent = true :=
  ⟨(missing_artifact_fail_fast envMissing "Fe2O3" (by decide)).1,
   (missing_artifact_fail_fast envMissing "Fe2O3" (by decide)).2.1⟩

/-- C5: when the composition resolver raises on a malformed formula (and
the earlier stages succeeded), the call fails inside the featurization
stage handler carrying the parse cause: the result is exactly None with
the trace ending at the featurization error, so the Scaler and Predictor
stages are never reached and no partial result is produced. -/
theorem malformed_formula_total_failure (env : Env) (arts : ModelArtifacts)
    (formula c : String)
    (h1 : required_files.all
      (fun f => (env.filesAt env.script_dir).contains f) = true)
    (h2 : env.artifactsAt env.script_dir = .ok arts)
    (h3 : env.matminer_available = true)
    (h4 : env.featurizer_preset = .ok ())
    (h5 : env.str_to_comp formula = .error c) :
    BGP.predict_band_gap env formula
      = (none, [Event.artifactsLoaded, Event.featurizeError c]) := by
  have hfilter : required_files.filter
      (fun f => !((env.filesAt env.script_dir).contains f)) = [] := by
    rw [List.filter_eq_nil_iff]
    intro a ha
    have := List.all_eq_true.mp h1 a ha
    simpa using this
  simp only [BGP.predict_band_gap]
  rw [hfilter]
  simp [h2, h3, h4, featurize_formula, h5]

/-- Witness for malformed_formula_total_failure: in the healthy synthetic
environment the unparseable formula Xx2 yields None with the featurize
stage failure and nothing after it. -/
theorem malformed_formula_total_failure_witness :
    BGP.predict_band_gap envGood "Xx2"
      = (none, [Event.artifactsLoaded, Event.featurizeError "ParseError"]) :=
  malformed_formula_total_failure envGood artsAB "Xx2" "ParseError"
    (by decide) rfl rfl rfl rfl

/-! ## Artifact-loading lifecycle -/

/-- Counterexample to C7 (artifacts loaded at most once per process): in
the healthy synthetic environment, a process that makes two prediction
calls performs two artifact-bundle disk loads — the bundle is reloaded on
every call instead of being cached. -/
theorem artifacts_reloaded_each_call :
    loadCount ((BGP.predict_band_gap envGood "TestX").snd
        ++ (BGP.predict_band_gap envGood "TestX").snd) = 2 := by
  decide

/-- C7 amended: every prediction call that passes the existence check and
deserializes successfully performs exactly one artifact-bundle disk load —
the bundle is loaded anew per call, held only for the call, and never
cached across calls (and, the call being a pure function of its
environment, never mutated). -/
theorem artifact_load_per_call (env : Env) (formula : String)
    (arts : ModelArtifacts)
    (h1 : required_files.all
      (fun f => (env.filesAt env.script_dir).contains f) = true)
    (h2 : env.artifactsAt env.script_dir = .ok arts) :
    loadCount (BGP.predict_band_gap env formula).snd = 1 := by
  have hfilter : required_files.filter
      (fun f => !((env.filesAt env.script_dir).contains f)) = [] := by
    rw [List.filter_eq_nil_iff]
    intro a ha
    have := List.all_eq_true.mp h1 a ha
    simpa using this
  simp only [BGP.predict_band_gap]
  rw [hfilter]
  cases hmm : env.matminer_available with
  | false =>
    simp [h2, loadCount, isLoadEvent]
  | true =>
    cases hfp : env.featurizer_preset with
    | error e =>
      simp [h2, hfp, loadCount, isLoadEvent]
    | ok u =>
      cases hff : featurize_formula env formula with
      | error e =>
        simp [h2, hfp, hff, loadCount, isLoadEvent]
      | ok raw =>
        cases hsc : arts.scaler (colValues (reindex raw arts.feature_columns)) with
        | error e =>
          simp [h2, hfp, hff, hsc, loadCount, isLoadEvent]
        | ok scaled =>
          cases hml : arts.model scaled with
          | error e =>
            simp [h2, hfp, hff, hsc, hml, loadCount, isLoadEvent]
          | ok preds =>
            cases hh : preds.head? with
            | none =>
              simp [h2, hfp, hff, hsc, hml, hh, loadCount, isLoadEvent]
            | some v =>
              simp [h2, hfp, hff, hsc, hml, hh, loadCount, isLoadEvent]

/-- Witness for artifact_load_per_call: the successful TestX call records
exactly one disk load. -/
theorem artifact_load_per_call_witness :
    loadCount (BGP.predict_band_gap envGood "TestX").snd = 1 :=
  artifact_load_per_call envGood "TestX" artsAB (by decide) rfl

/-! ## Trace helper lemmas -/

theorem errorKinds_missingMap (ms : List String) :
    errorKinds (ms.map Event.missingFile)
      = ms.map (fun _ => Stage.artifactCheck) := by
  induction ms with
  | nil => rfl
  | cons a t ih =>
    simp only [errorKinds] at ih ⊢
    rw [List.map_cons, List.filter_cons_of_pos rfl, List.map_cons, ih]
    rfl

theorem sameKind_constMap (l : List String) (s : Stage) :
    sameKind (l.map (fun _ => s)) = true := by
  cases l with
  | nil => rfl
  | cons a t =>
    simp only [List.map_cons, sameKind]
    apply List.all_eq_true.mpr
    intro x hx
    rcases List.mem_map.mp hx with ⟨b, hb, rfl⟩
    simp

theorem any_isErrorEvent_missingMap (ms : List String) (h : ms ≠ []) :
    (ms.map Event.missingFile).any isErrorEvent = true := by
  cases ms with
  | nil => exact absurd rfl h
  | cons a t => rfl

theorem failedStage_missingMap (ms : List String) (h : ms ≠ []) :
    failedStage (ms.map Event.missingFile) = some Stage.artifactCheck := by
  cases ms with
  | nil => exact absurd rfl h
  | cons a t => rfl

/-- Exhaustive outcome shapes of a band_gap_prediction.py call: either one
stage fails — leaving None and the trace of that stage's handler — or all
stages succeed and a scalar is returned with no failure report. -/
theorem predict_shape_bgp (env : Env) (formula : String) :
    (∃ ms, ms ≠ [] ∧ BGP.predict_band_gap env formula
        = (none, ms.map Event.missingFile)) ∨
    (∃ e, BGP.predict_band_gap env formula = (none, [Event.loadError e])) ∨
    (BGP.predict_band_gap env formula
      = (none, [Event.artifactsLoaded, Event.matminerImportError])) ∨
    (∃ e, BGP.predict_band_gap env formula
      = (none, [Event.artifactsLoaded, Event.featurizerError e])) ∨
    (∃ e, BGP.predict_band_gap env formula
      = (none, [Event.artifactsLoaded, Event.featurizeError e])) ∨
    (∃ e, BGP.predict_band_gap env formula
      = (none, [Event.artifactsLoaded, Event.featurized formula,
                Event.prepareError e])) ∨
    (∃ e, BGP.predict_band_gap env formula
      = (none, [Event.artifactsLoaded, Event.featurized formula,
                Event.featuresPrepared, Event.predictError e])) ∨
    (∃ v, BGP.predict_band_gap env formula
      = (some v, [Event.artifactsLoaded, Event.featurized formula,
                  Event.featuresPrepared])) := by
  by_cases hE : (required_files.filter
      (fun f => !((env.filesAt env.script_dir).contains f))).isEmpty = false
  · left
    refine ⟨required_files.filter
      (fun f => !((env.filesAt env.script_dir).contains f)), ?_, ?_⟩
    · exact List.isEmpty_eq_false.mp hE
    · simp only [BGP.predict_band_gap]
      rw [if_pos hE]
  · have hfilter : required_files.filter
        (fun f => !((env.filesAt env.script_dir).contains f)) = [] := by
      rcases hb : (required_files.filter
          (fun f => !((env.filesAt env.script_dir).contains f))).isEmpty with _ | _
      · exact absurd hb hE
      · exact List.isEmpty_iff.mp hb
    cases ha : env.artifactsAt env.script_dir with
    | error e =>
      right; left
      refine ⟨e, ?_⟩
      simp only [BGP.predict_band_gap]
      rw [hfilter]
      simp [ha]
    | ok arts =>
      cases hmm : env.matminer_available with
      | false =>
        right; right; left
        simp only [BGP.predict_band_gap]
        rw [hfilter]
        simp [ha, hmm]
      | true =>
        cases hfp : env.featurizer_preset with
        | error e =>
          right; right; right; left
          refine ⟨e, ?_⟩
          simp only [BGP.predict_band_gap]
          rw [hfilter]
          simp [ha, hmm, hfp]
        | ok u =>
          cases hff : featurize_formula env formula with
          | error e =>
            right; right; right; right; left
            refine ⟨e, ?_⟩
            simp only [BGP.predict_band_gap]
            rw [hfilter]
            simp [ha, hmm, hfp, hff]
          | ok raw =>
            cases hsc : arts.scaler (colValues (reindex raw arts.feature_columns)) with
            | error e =>
              right; right; right; right; right; left
              refine ⟨e, ?_⟩
              simp only [BGP.predict_band_gap]
              rw [hfilter]
              simp [ha, hmm, hfp, hff, hsc]
            | ok scaled =>
              cases hml : arts.model scaled with
              | error e =>
                right; right; right; right; right; right; left
                refine ⟨e, ?_⟩
                simp only [BGP.predict_band_gap]
                rw [hfilter]
                simp [ha, hmm, hfp, hff, hsc, hml]
              | ok preds =>
                cases hh : preds.head? with
                | none =>
                  right; right; right; right; right; right; left
                  refine ⟨"IndexError", ?_⟩
                  simp only [BGP.predict_band_gap]
                  rw [hfilter]
                  simp [ha, hmm, hfp, hff, hsc, hml, hh]
                | some v =>
                  right; right; right; right; right; right; right
                  refine ⟨v, ?_⟩
                  simp only [BGP.predict_band_gap]
                  rw [hfilter]
                  simp [ha, hmm, hfp, hff, hsc, hml, hh]

/-- Exhaustive outcome shapes of an rf.py call, mirroring
predict_shape_bgp (the missing-file report holds a single file name). -/
theorem predict_shape_rf (env : Env) (formula : String) :
    (∃ ms, ms ≠ [] ∧ RF.predict_band_gap env formula
        = (none, ms.map Event.missingFile)) ∨
    (∃ e, RF.predict_band_gap env formula = (none, [Event.loadError e])) ∨
    (RF.predict_band_gap env formula
      = (none, [Event.artifactsLoaded, Event.matminerImportError])) ∨
    (∃ e, RF.predict_band_gap env formula
      = (none, [Event.artifactsLoaded, Event.featurizerError e])) ∨
    (∃ e, RF.predict_band_gap env formula
      = (none, [Event.artifactsLoaded, Event.featurizeError e])) ∨
    (∃ e, RF.predict_band_gap env formula
      = (none, [Event.artifactsLoaded, Event.featurized formula,
                Event.prepareError e])) ∨
    (∃ e, RF.predict_band_gap env formula
      = (none, [Event.artifactsLoaded, Event.featurized formula,
                Event.featuresPrepared, Event.predictError e])) ∨
    (∃ v, RF.predict_band_gap env formula
      = (some v, [Event.artifactsLoaded, Event.featurized formula,
                  Event.featuresPrepared])) := by
  cases hm : required_files.find?
      (fun f => !((env.filesAt env.cwd).contains f)) with
  | some file =>
    left
    refine ⟨[file], by simp, ?_⟩
    simp only [RF.predict_band_gap]
    rw [hm]
    rfl
  | none =>
    cases ha : env.artifactsAt env.cwd with
    | error e =>
      right; left
      refine ⟨e, ?_⟩
      simp only [RF.predict_band_gap]
      rw [hm]
      simp [ha]
    | ok arts =>
      cases hmm : env.matminer_available with
      | false =>
        right; right; left
        simp only [RF.predict_band_gap]
        rw [hm]
        simp [ha, hmm]
      | true =>
        cases hfp : env.featurizer_preset with
        | error e =>
          right; right; right; left
          refine ⟨e, ?_⟩
          simp only [RF.predict_band_gap]
          rw [hm]
          simp [ha, hmm, hfp]
        | ok u =>
          cases hff : featurize_formula env formula with
          | error e =>
            right; right; right; right; left
            refine ⟨e, ?_⟩
            simp only [RF.predict_band_gap]
            rw [hm]
            simp [ha, hmm, hfp, hff]
          | ok raw =>
            cases hsc : arts.scaler (colValues (reindex raw arts.feature_columns)) with
            | error e =>
              right; right; right; right; right; left
              refine ⟨e, ?_⟩
              simp only [RF.predict_band_gap]
              rw [hm]
              simp [ha, hmm, hfp, hff, hsc]
            | ok scaled =>
              cases hml : arts.model scaled with
              | error e =>
                right; right; right; right; right; right; left
                refine ⟨e, ?_⟩
                simp only [RF.predict_band_gap]
                rw [hm]
                simp [ha, hmm, hfp, hff, hsc, hml]
              | ok preds =>
                cases hh : preds.head? with
                | none =>
                  right; right; right; right; right; right; left
                  refine ⟨"IndexError", ?_⟩
                  simp only [RF.predict_band_gap]
                  rw [hm]
                  simp [ha, hmm, hfp, hff, hsc, hml, hh]
                | some v =>
                  right; right; right; right; right; right; right
                  refine ⟨v, ?_⟩
                  simp only [RF.predict_band_gap]
                  rw [hm]
                  simp [ha, hmm, hfp, hff, hsc, hml, hh]

/-! ## Error-propagation claims -/

/-- Counterexample to C1 (no failure kind downgraded to a null result): in
the concrete environment whose artifact directory is empty, the call fails
(its trace carries failure reports) yet the value handed back to the
caller is None — the failure is downgraded to the null result the
interactive loop tests with `is not None`. -/
theorem null_downgrade_cex :
    (BGP.predict_band_gap envMissing "Fe2O3").snd.any isErrorEvent = true ∧
    (BGP.predict_band_gap envMissing "Fe2O3").fst = none := by
  decide

/-- C1 amended: in both scripts each call fails fast in at most one
stage-specific handler — the result is None exactly when some failure
report is in the trace, and all failure reports of a call belong to a
single stage — but every failure kind is downgraded to a printed report
plus a null (None) return value instead of a raised error. -/
theorem stage_specific_null_result (env : Env) (formula : String) :
    ((BGP.predict_band_gap env formula).fst.isNone
        = (BGP.predict_band_gap env formula).snd.any isErrorEvent) ∧
    (sameKind (errorKinds (BGP.predict_band_gap env formula).snd) = true) ∧
    ((RF.predict_band_gap env formula).fst.isNone
        = (RF.predict_band_gap env formula).snd.any isErrorEvent) ∧
    (sameKind (errorKinds (RF.predict_band_gap env formula).snd) = true) := by
  have hb : ((BGP.predict_band_gap env formula).fst.isNone
        = (BGP.predict_band_gap env formula).snd.any isErrorEvent) ∧
      (sameKind (errorKinds (BGP.predict_band_gap env formula).snd) = true) := by
    rcases predict_shape_bgp env formula with
      ⟨ms, hne, heq⟩ | ⟨e, heq⟩ | heq | ⟨e, heq⟩ | ⟨e, heq⟩ | ⟨e, heq⟩
        | ⟨e, heq⟩ | ⟨v, heq⟩ <;> rw [heq]
    · constructor
      · exact (any_isErrorEvent_missingMap ms hne).symm
      · show sameKind (errorKinds (ms.map Event.missingFile)) = true
        rw [errorKinds_missingMap ms]
        exact sameKind_constMap ms Stage.artifactCheck
    · exact ⟨rfl, rfl⟩
    · exact ⟨rfl, rfl⟩
    · exact ⟨rfl, rfl⟩
    · exact ⟨rfl, rfl⟩
    · exact ⟨rfl, rfl⟩
    · exact ⟨rfl, rfl⟩
    · exact ⟨rfl, rfl⟩
  have hr : ((RF.predict_band_gap env formula).fst.isNone
        = (RF.predict_band_gap env formula).snd.any isErrorEvent) ∧
      (sameKind (errorKinds (RF.predict_band_gap env formula).snd) = true) := by
    rcases predict_shape_rf env formula with
      ⟨ms, hne, heq⟩ | ⟨e, heq⟩ | heq | ⟨e, heq⟩ | ⟨e, heq⟩ | ⟨e, heq⟩
        | ⟨e, heq⟩ | ⟨v, heq⟩ <;> rw [heq]
    · constructor
      · exact (any_isErrorEvent_missingMap ms hne).symm
      · show sameKind (errorKinds (ms.map Event.missingFile)) = true
        rw [errorKinds_missingMap ms]
        exact sameKind_constMap ms Stage.artifactCheck
    · exact ⟨rfl, rfl⟩
    · exact ⟨rfl, rfl⟩
    · exact ⟨rfl, rfl⟩
    · exact ⟨rfl, rfl⟩
    · exact ⟨rfl, rfl⟩
    · exact ⟨rfl, rfl⟩
    · exact ⟨rfl, rfl⟩
  exact ⟨hb.1, hb.2, hr.1, hr.2⟩

/-- C9: both predict_band_gap functions are total at their public
boundary — every call returns either a scalar with no failure report, or
None with a caught, reported failure; no third outcome (in particular no
escaping exception) exists. -/
theorem predict_total_boundary (env : Env) (formula : String) :
    ((∃ v, (BGP.predict_band_gap env formula).fst = some v
        ∧ (BGP.predict_band_gap env formula).snd.any isErrorEvent = false) ∨
      ((BGP.predict_band_gap env formula).fst = none
        ∧ (BGP.predict_band_gap env formula).snd.any isErrorEvent = true)) ∧
    ((∃ v, (RF.predict_band_gap env formula).fst = some v
        ∧ (RF.predict_band_gap env formula).snd.any isErrorEvent = false) ∨
      ((RF.predict_band_gap env formula).fst = none
        ∧ (RF.predict_band_gap env formula).snd.any isErrorEvent = true)) := by
  constructor
  · rcases predict_shape_bgp env formula with
      ⟨ms, hne, heq⟩ | ⟨e, heq⟩ | heq | ⟨e, heq⟩ | ⟨e, heq⟩ | ⟨e, heq⟩
        | ⟨e, heq⟩ | ⟨v, heq⟩ <;> rw [heq]
    · exact Or.inr ⟨rfl, any_isErrorEvent_missingMap ms hne⟩
    · exact Or.inr ⟨rfl, rfl⟩
    · exact Or.inr ⟨rfl, rfl⟩
    · exact Or.inr ⟨rfl, rfl⟩
    · exact Or.inr ⟨rfl, rfl⟩
    · exact Or.inr ⟨rfl, rfl⟩
    · exact Or.inr ⟨rfl, rfl⟩
    · exact Or.inl ⟨v, rfl, rfl⟩
  · rcases predict_shape_rf env formula with
      ⟨ms, hne, heq⟩ | ⟨e, heq⟩ | heq | ⟨e, heq⟩ | ⟨e, heq⟩ | ⟨e, heq⟩
        | ⟨e, heq⟩ | ⟨v, heq⟩ <;> rw [heq]
    · exact Or.inr ⟨rfl, any_isErrorEvent_missingMap ms hne⟩
    · exact Or.inr ⟨rfl, rfl⟩
    · exact Or.inr ⟨rfl, rfl⟩
    · exact Or.inr ⟨rfl, rfl⟩
    · exact Or.inr ⟨rfl, rfl⟩
    · exact Or.inr ⟨rfl, rfl⟩
    · exact Or.inr ⟨rfl, rfl⟩
    · exact Or.inl ⟨v, rfl, rfl⟩

/-! ## Equivalence of the two scripts -/

/-- C8: the two scripts differ only in where they look for the artifact
files — band_gap_prediction.py resolves them against the script directory
and rf.py against the working directory.  Whenever the two base
directories hold the same files and deserialize to the same artifacts, the
two predict_band_gap functions return the same result and fail at the same
stage, for every formula.  (Diagnostic verbosity still differs: on missing
artifacts band_gap_prediction.py reports every missing file while rf.py
reports only the first.) -/
theorem variants_equivalent (env : Env) (formula : String)
    (hf : env.filesAt env.script_dir = env.filesAt env.cwd)
    (ha : env.artifactsAt env.script_dir = env.artifactsAt env.cwd) :
    ((BGP.predict_band_gap env formula).fst
      = (RF.predict_band_gap env formula).fst) ∧
    (failedStage (BGP.predict_band_gap env formula).snd
      = failedStage (RF.predict_band_gap env formula).snd) := by
  cases hm : required_files.find? (fun f => !((env.filesAt env.cwd).contains f)) with
  | none =>
    have hfilter : required_files.filter
        (fun f => !((env.filesAt env.cwd).contains f)) = [] := by
      rw [List.filter_eq_nil_iff]
      intro a hA
      have h2 := List.find?_eq_none.mp hm a hA
      simpa using h2
    have hsame : BGP.predict_band_gap env formula
        = RF.predict_band_gap env formula := by
      simp only [BGP.predict_band_gap, RF.predict_band_gap, hf, ha, hm, hfilter]
      rfl
    rw [hsame]
    exact ⟨rfl, rfl⟩
  | some f =>
    have hpf : (!((env.filesAt env.cwd).contains f)) = true :=
      @List.find?_some String (fun f2 => !((env.filesAt env.cwd).contains f2))
        f required_files hm
    have hfmem : f ∈ required_files := List.mem_of_find?_eq_some hm
    have hne : required_files.filter
        (fun f2 => !((env.filesAt env.cwd).contains f2)) ≠ [] := by
      intro hnil
      exact (List.filter_eq_nil_iff.mp hnil f hfmem) hpf
    have hE : (required_files.filter
        (fun f2 => !((env.filesAt env.cwd).contains f2))).isEmpty = false :=
      List.isEmpty_eq_false.mpr hne
    have hBGP : BGP.predict_band_gap env formula
        = (none, (required_files.filter
            (fun f2 => !((env.filesAt env.cwd).contains f2))).map
              Event.missingFile) := by
      simp only [BGP.predict_band_gap, hf]
      rw [if_pos hE]
    have hRF : RF.predict_band_gap env formula = (none, [Event.missingFile f]) := by
      simp only [RF.predict_band_gap]
      rw [hm]
    rw [hBGP, hRF]
    refine ⟨rfl, ?_⟩
    show failedStage ((required_files.filter
        (fun f2 => !((env.filesAt env.cwd).contains f2))).map Event.missingFile)
      = failedStage [Event.missingFile f]
    rw [failedStage_missingMap _ hne]
    rfl

/-- Witness for variants_equivalent: with the empty artifact directory the
two scripts agree on the None result and on the failing stage. -/
theorem variants_equivalent_witness :
    ((BGP.predict_band_gap envMissing "Fe2O3").fst
      = (RF.predict_band_gap envMissing "Fe2O3").fst) ∧
    (failedStage (BGP.predict_band_gap envMissing "Fe2O3").snd
      = failedStage (RF.predict_band_gap envMissing "Fe2O3").snd) :=
  variants_equivalent envMissing "Fe2O3" rfl rfl
